import Mathlib

/-!
Verification development for the localdeploy daemon.

Shallow embedding of src/src/main.rs and src/src/error.rs. External
effects (git transport, filesystem, environment, process spawning and
killing, the interactive passphrase prompt) are supplied as explicit
oracles; the control flow, defaulting, error propagation and panics of
the Rust code are translated faithfully.
-/

/-- Opaque OS child-process handle (std::process::Child), identified by a number. -/
abbrev Child := Nat

/-- Opaque on-disk repository handle (git2::Repository). -/
abbrev Repo := Nat

/-- Opaque git remote handle (git2::Remote). -/
abbrev RemoteHandle := Nat

/-- Opaque credential object (git2::Cred). -/
abbrev Cred := Nat

/-- The error enum of src/src/error.rs, extended with the two variants
`MissingUrlToRepo` and `MissingPath` that src/src/main.rs constructs
(the spec notes the sources mix two overlapping revisions). Payloads are
reduced to their message strings. -/
inductive Error where
  | GitError (msg : String)
  | MissingCommand
  | EnvError (msg : String)
  | IoError (msg : String)
  | MissingUrlToRepo
  | MissingPath
deriving DecidableEq, Repr

/-- The CLI arguments as the operator supplied them (before clap defaulting):
`none` means the option was absent on the command line. -/
structure ArgMatches where
  new : Option String := none
  branch : Option String := none
  remote : Option String := none
  public_key : Option String := none
  private_key : Option String := none
  path : Option String := none
  command : Option String := none
  interval : Option String := none
  username : Option String := none
  use_passphrase : Bool := false
deriving DecidableEq, Repr

/-- clap v2 `ArgMatches::value_of`: arguments declared with a
`default_value` (branch, remote, public-key, private-key, interval,
username) always yield a value; arguments without one (new, path,
command) yield the supplied value or none; a name that was never
declared as an argument — in particular "origin", which main.rs queries
although the declared argument is named "remote" — yields none. -/
def ArgMatches.value_of (app : ArgMatches) : String → Option String
  | "new" => app.new
  | "branch" => some (app.branch.getD "main")
  | "remote" => some (app.remote.getD "origin")
  | "public-key" => some (app.public_key.getD "~/.ssh/id_rsa.pub")
  | "private-key" => some (app.private_key.getD "~/.ssh/id_rsa")
  | "path" => app.path
  | "command" => app.command
  | "interval" => some (app.interval.getD "3600")
  | "username" => some (app.username.getD "git")
  | _ => none

/-- clap v2 `ArgMatches::is_present` for the names main.rs queries. -/
def ArgMatches.is_present (app : ArgMatches) : String → Bool
  | "new" => app.new.isSome
  | "path" => app.path.isSome
  | "use-passphrase" => app.use_passphrase
  | _ => false

/-- Ambient process environment: `env::var("HOME")` and `env::current_dir()`. -/
structure Env where
  home : Except String String
  current_dir : Except String String

/-- Oracles for the git library and filesystem calls main.rs makes.
Errors carry their message strings. -/
structure GitOracles where
  create_dir_all : String → Except String Unit
  clone : String → String → Except String Repo
  discover : String → Except String Repo
  find_remote : Repo → String → Except String RemoteHandle
  fetch : RemoteHandle → List String → Except String Unit

/-- The `Main` struct of src/src/main.rs (the live `Repository` field is the
opaque handle). -/
structure Main where
  origin : String
  branch : String
  cmd : String
  args : List String
  repo_path : String
  child : Option Child
  repo : Option Repo
  interval : Nat
  username : String
  public_key_path : String
  private_key_path : String
  passphrase : Option String
deriving DecidableEq, Repr

/-- Rust `str::parse::<u64>()`: an optional leading plus sign, then one or
more ASCII digits, rejecting overflow past 2^64. -/
def parse_u64 (s : String) : Option Nat :=
  let t := match s.data with
    | '+' :: rest => rest
    | l => l
  if t.length > 0 && t.all Char.isDigit then
    let n := t.foldl (fun acc c => acc * 10 + (c.toNat - 48)) 0
    if n < 2 ^ 64 then some n else none
  else none

/-- Splitting a character list at every separator matching `p`, keeping
empty fields: the semantics of Rust `str::split`, which yields one field
even for the empty input and an empty field between adjacent separators. -/
def splitFields (p : Char → Bool) : List Char → List (List Char)
  | [] => [[]]
  | c :: cs =>
    if p c then [] :: splitFields p cs
    else
      match splitFields p cs with
      | [] => [[c]]
      | f :: fs => (c :: f) :: fs

/-- Rust `str::trim`: remove leading and trailing whitespace characters. -/
def trimWs (l : List Char) : List Char :=
  ((l.dropWhile Char.isWhitespace).reverse.dropWhile Char.isWhitespace).reverse

/-- `Main::parse_cmd_args`: trim the command string, split it on the single
space character (empty fields kept), reject when at most one field
results, else the first field is the executable and the rest the
arguments. -/
def Main.parse_cmd_args (command : String) : Except Error (String × List String) :=
  let args := (splitFields (fun c => c = ' ') (trimWs command.data)).map List.asString
  if args.length ≤ 1 then Except.error Error.MissingCommand
  else
    match args with
    | [] => Except.error Error.MissingCommand
    | cmd :: rest => Except.ok (cmd, rest)

/-- `Main::new_repo`: create all missing directories, then clone. -/
def Main.new_repo (new : String) (git : GitOracles) (path : String) : Except Error Repo :=
  match git.create_dir_all path with
  | Except.error e => Except.error (Error.IoError e)
  | Except.ok _ =>
    match git.clone new path with
    | Except.error e => Except.error (Error.GitError e)
    | Except.ok r => Except.ok r

/-- `Main::new`: resolve every option in source order, parse the command,
optionally prompt for a passphrase, then clone or discover the repository
according to presence of the `new` and `path` options. `prompt` is the
result of `rpassword::prompt_password_stdout`. -/
def Main.new (app : ArgMatches) (env : Env) (git : GitOracles)
    (prompt : Except Unit String) : Except Error Main :=
  let origin := (ArgMatches.value_of app "origin").getD "origin"
  let branch := (ArgMatches.value_of app "branch").getD "main"
  match ArgMatches.value_of app "command" with
  | none => Except.error Error.MissingCommand
  | some command =>
    match (match ArgMatches.value_of app "path" with
           | some p => Except.ok p
           | none =>
             match env.current_dir with
             | Except.ok d => Except.ok d
             | Except.error e => Except.error (Error.IoError e)) with
    | Except.error e => Except.error e
    | Except.ok repo_path =>
      match (match ArgMatches.value_of app "public-key" with
             | some p => Except.ok p
             | none =>
               match env.home with
               | Except.ok h => Except.ok (h ++ "/.ssh/id_rsa.pub")
               | Except.error e => Except.error (Error.EnvError e)) with
      | Except.error e => Except.error e
      | Except.ok public_key_path =>
        match (match ArgMatches.value_of app "private-key" with
               | some p => Except.ok p
               | none =>
                 match env.home with
                 | Except.ok h => Except.ok (h ++ "/.ssh/id_rsa")
                 | Except.error e => Except.error (Error.EnvError e)) with
        | Except.error e => Except.error e
        | Except.ok private_key_path =>
          let interval := match ArgMatches.value_of app "interval" with
            | some r => (parse_u64 r).getD 3600
            | none => 3600
          let username := (ArgMatches.value_of app "username").getD ""
          match Main.parse_cmd_args command with
          | Except.error e => Except.error e
          | Except.ok (cmd, args) =>
            let passphrase : Option String :=
              if ArgMatches.is_present app "use-passphrase" then
                some (match prompt with
                      | Except.ok s => s
                      | Except.error _ => "")
              else none
            match (ArgMatches.is_present app "new", ArgMatches.is_present app "path") with
            | (true, true) =>
              match ArgMatches.value_of app "new" with
              | none => Except.error Error.MissingUrlToRepo
              | some new =>
                match Main.new_repo new git repo_path with
                | Except.error e => Except.error e
                | Except.ok repo =>
                  Except.ok { origin, branch, cmd, args, repo_path, child := none,
                              repo := some repo, interval, username,
                              public_key_path, private_key_path, passphrase }
            | (true, false) => Except.error Error.MissingPath
            | (false, true) =>
              match git.discover repo_path with
              | Except.error e => Except.error (Error.GitError e)
              | Except.ok repo =>
                Except.ok { origin, branch, cmd, args, repo_path, child := none,
                            repo := some repo, interval, username,
                            public_key_path, private_key_path, passphrase }
            | (false, false) => Except.error Error.MissingPath

/-- Outcome of one invocation of the credentials callback: a credential,
a library error, or a Rust panic. -/
inductive CredOutcome where
  | ok (c : Cred)
  | err (e : String)
  | panicked (msg : String)
deriving DecidableEq, Repr

/-- Oracles for the two git2 credential constructors. `ssh_key` takes the
username, the optional public key path, the private key path and the
optional passphrase, in source order. -/
structure CredOracles where
  ssh_key_from_agent : String → Except String Cred
  ssh_key : String → Option String → String → Option String → Except String Cred

/-- The credentials closure installed by `Main::fetch_options`: pick the
transport-supplied username when present, else the configured one; try
the SSH agent with it; on agent failure fall back to
`Cred::ssh_key(username_from_url.unwrap(), ...)` — which panics when the
transport supplied no username. -/
def Main.credentials (m : Main) (cr : CredOracles) (_url : String)
    (username_from_url : Option String) : CredOutcome :=
  let username := match username_from_url with
    | some u => u
    | none => m.username
  match cr.ssh_key_from_agent username with
  | Except.ok c => CredOutcome.ok c
  | Except.error _ =>
    match username_from_url with
    | none => CredOutcome.panicked "called Option::unwrap() on a None value"
    | some u =>
      match cr.ssh_key u (some m.public_key_path) m.private_key_path m.passphrase with
      | Except.ok c => CredOutcome.ok c
      | Except.error e => CredOutcome.err e

/-- `Main::passphrase`: store the prompt result, an empty string when the
prompt fails, always wrapped in `Some`. -/
def Main.prompt_passphrase (m : Main) (prompt : Except Unit String) : Main :=
  { m with passphrase := some (match prompt with
                               | Except.ok s => s
                               | Except.error _ => "") }

/-- `Main::fetch_git_repo`: when a repository handle is held, look up the
remote named by `self.origin` and fetch `self.branch`; with no handle the
call is a silent no-op. -/
def Main.fetch_git_repo (m : Main) (git : GitOracles) : Except Error Unit :=
  match m.repo with
  | some repo =>
    match git.find_remote repo m.origin with
    | Except.error e => Except.error (Error.GitError e)
    | Except.ok remote =>
      match git.fetch remote [m.branch] with
      | Except.error e => Except.error (Error.GitError e)
      | Except.ok _ => Except.ok ()
  | none => Except.ok ()

/-- Outcome of `Main::spawn_cmd`: on spawn success the handle is stored in
the single `child` slot and `Ok(())` is returned; a spawn failure hits
`.expect("failed to spawn cmd")`, i.e. a panic, never a typed error. -/
inductive SpawnOutcome where
  | ok (m : Main)
  | panicked (msg : String)
deriving DecidableEq, Repr

/-- `Main::spawn_cmd`, with the OS spawn result supplied as an oracle. -/
def Main.spawn_cmd (m : Main) (spawnResult : Except String Child) : SpawnOutcome :=
  match spawnResult with
  | Except.ok c => SpawnOutcome.ok { m with child := some c }
  | Except.error _ => SpawnOutcome.panicked "failed to spawn cmd"

/-- Observable events of the daemon loop, in program order. A `kill`
event records the handle and whether the OS kill call succeeded; the
code discards that result. -/
inductive Event where
  | sync
  | spawn (c : Child)
  | sleep (secs : Nat)
  | kill (c : Child) (ok : Bool)
deriving DecidableEq, Repr

/-- How a run of the loop can stop: a propagated `Error` (non-zero process
exit) or a Rust panic. The loop itself has no normal return. -/
inductive Halt where
  | err (e : Error)
  | panicked (msg : String)
deriving DecidableEq, Repr

/-- Per-cycle world for `Main::run`: the git world seen by cycle `i`, the
OS result of the spawn in cycle `i`, and whether `Child::kill` on the given
handle succeeds in cycle `i`. -/
structure RunOracle where
  git : Nat → GitOracles
  spawn : Nat → Except String Child
  kill : Nat → Child → Bool

/-- One iteration of the `loop` body of `Main::run` at cycle index `i`:
fetch, spawn, sleep `interval`, then kill the tracked child (its result
discarded). Returns the events of the iteration and either a halt or the
state for the next iteration. -/
def Main.runCycle (w : RunOracle) (i : Nat) (m : Main) : List Event × Except Halt Main :=
  match Main.fetch_git_repo m (w.git i) with
  | Except.error e => ([Event.sync], Except.error (Halt.err e))
  | Except.ok _ =>
    match Main.spawn_cmd m (w.spawn i) with
    | SpawnOutcome.panicked msg => ([Event.sync], Except.error (Halt.panicked msg))
    | SpawnOutcome.ok m2 =>
      match m2.child with
      | some ch =>
        ([Event.sync, Event.spawn ch, Event.sleep m2.interval,
          Event.kill ch (w.kill i ch)], Except.ok m2)
      | none => ([Event.sync, Event.sleep m2.interval], Except.ok m2)

/-- `Main::run` bounded by fuel, starting at cycle index `i`: the Rust loop
never exits on its own, so exhausted fuel returns the running state. -/
def Main.runFrom (w : RunOracle) : Nat → Nat → Main → List Event × Except Halt Main
  | _, 0, m => ([], Except.ok m)
  | i, fuel + 1, m =>
    match Main.runCycle w i m with
    | (evs, Except.error h) => (evs, Except.error h)
    | (evs, Except.ok m2) =>
      let r := Main.runFrom w (i + 1) fuel m2
      (evs ++ r.1, r.2)

/-- `Main::run` observed for `fuel` cycles from the start. -/
def Main.run (w : RunOracle) (fuel : Nat) (m : Main) : List Event × Except Halt Main :=
  Main.runFrom w 0 fuel m

/-- The exit code `fn main` produces for a halt: returning `Err` from a
Rust `main` exits with code 1, a panic aborts with code 101. -/
def haltExitCode : Halt → Nat
  | Halt.err _ => 1
  | Halt.panicked _ => 101

/-- Handles spawned in a trace, in order. -/
def spawnedHandles : List Event → List Child :=
  List.filterMap fun e => match e with
    | Event.spawn c => some c
    | _ => none

/-- Handles the loop attempted to kill, in order. -/
def killedHandles : List Event → List Child :=
  List.filterMap fun e => match e with
    | Event.kill c _ => some c
    | _ => none

/-- Forget whether each kill call succeeded (the program does). -/
def eraseKillResults : List Event → List Event :=
  List.map fun e => match e with
    | Event.kill c _ => Event.kill c true
    | x => x

/-- The event pattern of one successful cycle `i`: sync, spawn the cycle
handle, sleep the configured interval, kill that same handle. -/
def cycleTrace (w : RunOracle) (interval : Nat) (c : Nat → Child) (i : Nat) : List Event :=
  [Event.sync, Event.spawn (c i), Event.sleep interval,
   Event.kill (c i) (w.kill i (c i))]

/-- The strict perpetual repetition of that cycle pattern, `fuel` times
starting at cycle `i`. -/
def tracesFrom (w : RunOracle) (interval : Nat) (c : Nat → Child) : Nat → Nat → List Event
  | _, 0 => []
  | i, fuel + 1 => cycleTrace w interval c i ++ tracesFrom w interval c (i + 1) fuel

/-- Whether a run result is a typed error propagated to the caller
(as opposed to a panic or a still-running state). -/
def isTypedErr : Except Halt Main → Bool
  | Except.error (Halt.err _) => true
  | _ => false

/-- Modelled from the spec: command parsing by splitting the command
string on whitespace into tokens, first token the executable, remaining
tokens the arguments, fewer than two tokens rejected. Stated for
comparison against `Main.parse_cmd_args`, which the source defines. -/
def parse_cmd_whitespace_spec (command : String) : Except Error (String × List String) :=
  let toks :=
    ((splitFields Char.isWhitespace command.data).filter (fun f => f ≠ [])).map List.asString
  if toks.length ≤ 1 then Except.error Error.MissingCommand
  else
    match toks with
    | [] => Except.error Error.MissingCommand
    | cmd :: rest => Except.ok (cmd, rest)

/-- Environment fixture: home directory and working directory resolve. -/
def envOk : Env :=
  { home := Except.ok "/home/op", current_dir := Except.ok "/home/op/work" }

/-- Git world fixture: a repository at handle 7 whose only remote is
named "origin"; clone and fetch succeed. -/
def gitOk : GitOracles :=
  { create_dir_all := fun _ => Except.ok ()
    clone := fun _ _ => Except.ok 5
    discover := fun _ => Except.ok 7
    find_remote := fun _ n => if n = "origin" then Except.ok 1 else Except.error "remote not found"
    fetch := fun _ _ => Except.ok () }

/-- Git world fixture: the repository has a remote named "upstream" and
no remote named "origin". -/
def gitUp : GitOracles :=
  { gitOk with
    find_remote := fun _ n =>
      if n = "upstream" then Except.ok 1 else Except.error "no remote named origin" }

/-- Git world fixture: the remote is unreachable, every fetch fails. -/
def gitDown : GitOracles :=
  { gitOk with fetch := fun _ _ => Except.error "failed to connect" }

/-- The `Main` value produced by discovering the fixture repository with
all defaults: remote "origin", branch "main", command "npm start". -/
def mDisc : Main :=
  { origin := "origin", branch := "main", cmd := "npm", args := ["start"],
    repo_path := "/srv/repo", child := none, repo := some 7, interval := 3600,
    username := "git", public_key_path := "~/.ssh/id_rsa.pub",
    private_key_path := "~/.ssh/id_rsa", passphrase := none }

/-- `mDisc` after a failed passphrase prompt: passphrase present but empty. -/
def mEmptyPass : Main := { mDisc with passphrase := some "" }

/-- Run-world fixture: every fetch and spawn succeeds (cycle `i` spawns
handle `100 + i`), every kill succeeds. -/
def wOk : RunOracle :=
  { git := fun _ => gitOk, spawn := fun i => Except.ok (100 + i), kill := fun _ _ => true }

/-- Like `wOk` but every kill call reports failure. -/
def wKillFail : RunOracle := { wOk with kill := fun _ _ => false }

/-- Like `wOk` but the executable cannot be started. -/
def wSpawnFail : RunOracle :=
  { wOk with spawn := fun _ => Except.error "No such file or directory" }

/-- Like `wOk` but the remote is unreachable from the first cycle on. -/
def wFetchFail : RunOracle := { wOk with git := fun _ => gitDown }

/-- Credential oracle fixture: the SSH agent rejects every username and
the key file is unusable. -/
def crAgentFail : CredOracles :=
  { ssh_key_from_agent := fun _ => Except.error "agent refused"
    ssh_key := fun _ _ _ _ => Except.error "no usable key" }

/-- CLI fixture for C4: a clone URL and a command but no path option. -/
def app4 : ArgMatches :=
  { new := some "ssh://git@example.com/r.git", command := some "npm start" }

/-- CLI fixture for C5: a non-default remote name. -/
def app5 : ArgMatches :=
  { remote := some "upstream", path := some "/srv/repo", command := some "npm start" }

/-- CLI fixture for C10: passphrase hint given. -/
def app10 : ArgMatches :=
  { path := some "/srv/repo", command := some "npm start", use_passphrase := true }

/-- Updating the child slot does not change what a fetch does. -/
lemma fetch_child_irrel (m : Main) (x : Option Child) (g : GitOracles) :
    Main.fetch_git_repo { m with child := x } g = Main.fetch_git_repo m g := rfl

lemma withChild_withChild (m : Main) (x y : Option Child) :
    ({ { m with child := x } with child := y } : Main) = { m with child := y } := rfl

lemma withChild_self (m : Main) : ({ m with child := m.child } : Main) = m := rfl

/-- Core loop lemma: while every fetch succeeds and every spawn yields the
handle `c j`, the loop runs all its fuel, emits exactly the repeated
cycle pattern, and is left tracking the handle of the last cycle. -/
lemma Main.runFrom_ok_of (m0 : Main) (w : RunOracle) (c : Nat → Child) :
    ∀ fuel i x,
      (∀ j, j < fuel → Main.fetch_git_repo m0 (w.git (i + j)) = Except.ok () ∧
        w.spawn (i + j) = Except.ok (c (i + j))) →
      Main.runFrom w i fuel { m0 with child := x } =
        (tracesFrom w m0.interval c i fuel,
         Except.ok { m0 with child := if fuel = 0 then x else some (c (i + fuel - 1)) }) := by
  intro fuel
  induction fuel with
  | zero => intro i x _; simp [Main.runFrom, tracesFrom]
  | succ fuel ih =>
    intro i x H
    have h0 := H 0 (Nat.succ_pos _)
    rw [Nat.add_zero] at h0
    have ihx := ih (i + 1) (some (c i)) (fun j hj => by
      have := H (j + 1) (by omega)
      rwa [show i + (j + 1) = i + 1 + j by omega] at this)
    simp only [Main.runFrom, Main.runCycle, fetch_child_irrel, h0.1, h0.2, Main.spawn_cmd,
      withChild_withChild, tracesFrom, cycleTrace] at ihx ⊢
    rw [ihx]
    rcases fuel with _ | fuel
    · simp
    · simp only [Nat.succ_ne_zero, if_false, List.cons_append, List.nil_append,
        Prod.mk.injEq, true_and]
      norm_num
      congr 1
      omega

lemma spawnedHandles_append (l1 l2 : List Event) :
    spawnedHandles (l1 ++ l2) = spawnedHandles l1 ++ spawnedHandles l2 := by
  simp [spawnedHandles]

lemma killedHandles_append (l1 l2 : List Event) :
    killedHandles (l1 ++ l2) = killedHandles l1 ++ killedHandles l2 := by
  simp [killedHandles]

lemma spawnedHandles_tracesFrom (w : RunOracle) (iv : Nat) (c : Nat → Child) :
    ∀ k i, spawnedHandles (tracesFrom w iv c i k) = (List.range k).map (fun j => c (i + j)) := by
  intro k
  induction k with
  | zero => intro i; simp [tracesFrom, spawnedHandles]
  | succ k ih =>
    intro i
    rw [tracesFrom, spawnedHandles_append, ih (i + 1), List.range_succ_eq_map]
    simp only [cycleTrace, spawnedHandles, List.filterMap, List.map_cons, List.map_map,
      Nat.add_zero, List.singleton_append]
    have hfe : (fun j => c (i + 1 + j)) = ((fun j => c (i + j)) ∘ Nat.succ) := by
      funext j
      simp only [Function.comp]
      congr 1
      omega
    rw [hfe]

lemma killedHandles_tracesFrom (w : RunOracle) (iv : Nat) (c : Nat → Child) :
    ∀ k i, killedHandles (tracesFrom w iv c i k) = (List.range k).map (fun j => c (i + j)) := by
  intro k
  induction k with
  | zero => intro i; simp [tracesFrom, killedHandles]
  | succ k ih =>
    intro i
    rw [tracesFrom, killedHandles_append, ih (i + 1), List.range_succ_eq_map]
    simp only [cycleTrace, killedHandles, List.filterMap, List.map_cons, List.map_map,
      Nat.add_zero, List.singleton_append]
    have hfe : (fun j => c (i + 1 + j)) = ((fun j => c (i + j)) ∘ Nat.succ) := by
      funext j
      simp only [Function.comp]
      congr 1
      omega
    rw [hfe]

/-- Claim C1: for every configuration that constructs successfully (any
`Main` state), as long as every sync and spawn succeeds the daemon loop
perpetually repeats sync, spawn, sleep for `interval`, then kill, in that
strict order: the observable trace over any number of cycles is exactly
the repetition of `cycleTrace`, in which the kill event targets the very
handle spawned in the same cycle after the single one-interval sleep
separating them, and the loop is never in a terminal state — after any
fuel it is still running, tracking the last handle. -/
theorem C1_cycle_order (m0 : Main) (w : RunOracle) (c : Nat → Child)
    (hf : ∀ j, Main.fetch_git_repo m0 (w.git j) = Except.ok ())
    (hs : ∀ j, w.spawn j = Except.ok (c j)) (fuel : Nat) :
    Main.run w fuel m0 =
      (tracesFrom w m0.interval c 0 fuel,
       Except.ok { m0 with child := if fuel = 0 then m0.child else some (c (fuel - 1)) }) := by
  have h := Main.runFrom_ok_of m0 w c fuel 0 m0.child
    (fun j _ => by rw [Nat.zero_add]; exact ⟨hf j, hs j⟩)
  rw [withChild_self] at h
  simpa [Main.run, Nat.zero_add] using h

/-- Claim C1 witness: two concrete all-success cycles of the fixture. -/
theorem C1_cycle_order_witness :
    Main.run wOk 2 mDisc =
      ([Event.sync, Event.spawn 100, Event.sleep 3600, Event.kill 100 true,
        Event.sync, Event.spawn 101, Event.sleep 3600, Event.kill 101 true],
       Except.ok { mDisc with child := some 101 }) := by
  have h := C1_cycle_order mDisc wOk (fun i => 100 + i) (fun _ => rfl) (fun _ => rfl) 2
  rw [h]
  rfl

/-- Claim C2: at every point at most one child handle is tracked — the
state has a single `Option Child` slot whose content after `n` successful
cycles is exactly the handle spawned in cycle `n - 1`; every handle that
ever occupied the slot (one spawn per cycle, in order) has also been
killed, so each spawn replaces an occupant that was killed in the
preceding cycle. -/
theorem C2_single_slot (m0 : Main) (w : RunOracle) (c : Nat → Child)
    (hf : ∀ j, Main.fetch_git_repo m0 (w.git j) = Except.ok ())
    (hs : ∀ j, w.spawn j = Except.ok (c j)) (n : Nat) :
    (Main.run w n m0).2 =
        Except.ok { m0 with child := if n = 0 then m0.child else some (c (n - 1)) }
    ∧ spawnedHandles (Main.run w n m0).1 = (List.range n).map c
    ∧ killedHandles (Main.run w n m0).1 = (List.range n).map c := by
  have h := Main.runFrom_ok_of m0 w c n 0 m0.child
    (fun j _ => by rw [Nat.zero_add]; exact ⟨hf j, hs j⟩)
  rw [withChild_self] at h
  have hc : (fun j => c (0 + j)) = c := by funext j; rw [Nat.zero_add]
  refine ⟨?_, ?_, ?_⟩
  · rw [Main.run, h]; simp [Nat.zero_add]
  · rw [Main.run, h]; simp only [spawnedHandles_tracesFrom, hc]
  · rw [Main.run, h]; simp only [killedHandles_tracesFrom, hc]

/-- Claim C2 witness: after two concrete cycles the slot holds exactly the
second handle and both spawned handles were killed. -/
theorem C2_single_slot_witness :
    (Main.run wOk 2 mDisc).2 = Except.ok { mDisc with child := some 101 }
    ∧ spawnedHandles (Main.run wOk 2 mDisc).1 = [100, 101]
    ∧ killedHandles (Main.run wOk 2 mDisc).1 = [100, 101] := by
  have h := C2_single_slot mDisc wOk (fun i => 100 + i) (fun _ => rfl) (fun _ => rfl) 2
  refine ⟨by rw [h.1]; rfl, ?_, ?_⟩
  · rw [h.2.1]; rfl
  · rw [h.2.2]; rfl

/-- If the fetch of cycle `k` fails after `k` fully successful cycles, the
loop stops inside the sync of cycle `k`, whatever fuel remains. -/
lemma Main.runFrom_fetch_fail (m0 : Main) (w : RunOracle) (c : Nat → Child) (e : Error) :
    ∀ k i x extra,
      (∀ j, j < k → Main.fetch_git_repo m0 (w.git (i + j)) = Except.ok () ∧
        w.spawn (i + j) = Except.ok (c (i + j))) →
      Main.fetch_git_repo m0 (w.git (i + k)) = Except.error e →
      Main.runFrom w i (k + (extra + 1)) { m0 with child := x } =
        (tracesFrom w m0.interval c i k ++ [Event.sync], Except.error (Halt.err e)) := by
  intro k
  induction k with
  | zero =>
    intro i x extra _ hfail
    rw [Nat.add_zero] at hfail
    rw [Nat.zero_add]
    simp [Main.runFrom, Main.runCycle, fetch_child_irrel, hfail, tracesFrom]
  | succ k ih =>
    intro i x extra H hfail
    have h0 := H 0 (Nat.succ_pos _)
    rw [Nat.add_zero] at h0
    rw [show k + 1 + (extra + 1) = (k + (extra + 1)) + 1 by omega]
    have ihx := ih (i + 1) (some (c i)) extra
      (fun j hj => by
        have := H (j + 1) (by omega)
        rwa [show i + (j + 1) = i + 1 + j by omega] at this)
      (by rwa [show i + 1 + k = i + (k + 1) by omega])
    simp only [Main.runFrom, Main.runCycle, fetch_child_irrel, h0.1, h0.2, Main.spawn_cmd,
      withChild_withChild] at ihx ⊢
    rw [ihx]
    simp [tracesFrom, cycleTrace]

/-- If the spawn of cycle `k` fails after `k` fully successful cycles and a
successful sync, the loop panics in cycle `k`, whatever fuel remains. -/
lemma Main.runFrom_spawn_fail (m0 : Main) (w : RunOracle) (c : Nat → Child) (msg : String) :
    ∀ k i x extra,
      (∀ j, j < k → Main.fetch_git_repo m0 (w.git (i + j)) = Except.ok () ∧
        w.spawn (i + j) = Except.ok (c (i + j))) →
      Main.fetch_git_repo m0 (w.git (i + k)) = Except.ok () →
      w.spawn (i + k) = Except.error msg →
      Main.runFrom w i (k + (extra + 1)) { m0 with child := x } =
        (tracesFrom w m0.interval c i k ++ [Event.sync],
         Except.error (Halt.panicked "failed to spawn cmd")) := by
  intro k
  induction k with
  | zero =>
    intro i x extra _ hfok hsfail
    rw [Nat.add_zero] at hfok hsfail
    rw [Nat.zero_add]
    simp [Main.runFrom, Main.runCycle, fetch_child_irrel, hfok, hsfail, Main.spawn_cmd,
      tracesFrom]
  | succ k ih =>
    intro i x extra H hfok hsfail
    have h0 := H 0 (Nat.succ_pos _)
    rw [Nat.add_zero] at h0
    rw [show k + 1 + (extra + 1) = (k + (extra + 1)) + 1 by omega]
    have ihx := ih (i + 1) (some (c i)) extra
      (fun j hj => by
        have := H (j + 1) (by omega)
        rwa [show i + (j + 1) = i + 1 + j by omega] at this)
      (by rwa [show i + 1 + k = i + (k + 1) by omega])
      (by rwa [show i + 1 + k = i + (k + 1) by omega])
    simp only [Main.runFrom, Main.runCycle, fetch_child_irrel, h0.1, h0.2, Main.spawn_cmd,
      withChild_withChild] at ihx ⊢
    rw [ihx]
    simp [tracesFrom, cycleTrace]

/-- Claim C7: any sync failure aborts the entire daemon with the typed
error — there is no cycle-level retry or backoff: after `k` clean cycles a
failing fetch in cycle `k` halts the run with `Halt.err e` no matter how
much fuel remains, the trace stops right at that sync, the only spawned
handles are those of the earlier clean cycles, and the process exit code
for the halt is non-zero; in particular a first-cycle fetch failure
(`k = 0`) means no child process was ever spawned. -/
theorem C7_sync_failure_fatal (m0 : Main) (w : RunOracle) (c : Nat → Child) (e : Error)
    (k : Nat)
    (hpre : ∀ j, j < k → Main.fetch_git_repo m0 (w.git j) = Except.ok () ∧
      w.spawn j = Except.ok (c j))
    (hfail : Main.fetch_git_repo m0 (w.git k) = Except.error e) (extra : Nat) :
    Main.run w (k + (extra + 1)) m0 =
      (tracesFrom w m0.interval c 0 k ++ [Event.sync], Except.error (Halt.err e))
    ∧ spawnedHandles (Main.run w (k + (extra + 1)) m0).1 = (List.range k).map c
    ∧ (k = 0 → spawnedHandles (Main.run w (k + (extra + 1)) m0).1 = [])
    ∧ haltExitCode (Halt.err e) ≠ 0 := by
  have h := Main.runFrom_fetch_fail m0 w c e k 0 m0.child extra
    (fun j hj => by rw [Nat.zero_add]; exact hpre j hj)
    (by rwa [Nat.zero_add])
  rw [withChild_self] at h
  have hc : (fun j => c (0 + j)) = c := by funext j; rw [Nat.zero_add]
  have hrun : Main.run w (k + (extra + 1)) m0 =
      (tracesFrom w m0.interval c 0 k ++ [Event.sync], Except.error (Halt.err e)) := h
  refine ⟨hrun, ?_, ?_, by simp [haltExitCode]⟩
  · rw [hrun]
    simp only [spawnedHandles_append, spawnedHandles_tracesFrom, hc]
    simp [spawnedHandles]
  · intro hk
    subst hk
    rw [hrun]
    simp [tracesFrom, spawnedHandles]

/-- Claim C7 witness: the fixture remote is unreachable on the very first
fetch; the daemon halts with the git error before anything is spawned. -/
theorem C7_sync_failure_fatal_witness :
    Main.run wFetchFail 3 mDisc =
      ([Event.sync], Except.error (Halt.err (Error.GitError "failed to connect")))
    ∧ spawnedHandles (Main.run wFetchFail 3 mDisc).1 = [] := by
  have h := C7_sync_failure_fatal mDisc wFetchFail (fun i => 100 + i)
    (Error.GitError "failed to connect") 0 (fun j hj => absurd hj (Nat.not_lt_zero j))
    rfl 2
  exact ⟨h.1, h.2.2.1 rfl⟩

/-- Claim C8 counterexample: when the executable cannot be started the
daemon does not return a typed error to the caller — `spawn_cmd` hits the
`expect` and the run halts as a panic, which `isTypedErr` rejects. -/
theorem C8_counterexample :
    Main.run wSpawnFail 1 mDisc =
      ([Event.sync], Except.error (Halt.panicked "failed to spawn cmd"))
    ∧ isTypedErr (Main.run wSpawnFail 1 mDisc).2 = false
    ∧ Main.spawn_cmd mDisc (Except.error "No such file or directory") =
        SpawnOutcome.panicked "failed to spawn cmd" := by
  exact ⟨rfl, rfl, rfl⟩

/-- Claim C8 (amended): when the configured executable cannot be started,
`spawn_cmd` panics with message "failed to spawn cmd" instead of
returning a typed error, and this failure is still fatal to the whole
daemon: after `k` clean cycles a failing spawn halts the run right after
that sync, whatever fuel remains, with a panic (non-zero process exit),
never a typed error. -/
theorem C8_spawn_failure_panics (m0 : Main) (w : RunOracle) (c : Nat → Child) (msg : String)
    (k : Nat)
    (hpre : ∀ j, j < k → Main.fetch_git_repo m0 (w.git j) = Except.ok () ∧
      w.spawn j = Except.ok (c j))
    (hfok : Main.fetch_git_repo m0 (w.git k) = Except.ok ())
    (hsfail : w.spawn k = Except.error msg) (extra : Nat) :
    Main.run w (k + (extra + 1)) m0 =
      (tracesFrom w m0.interval c 0 k ++ [Event.sync],
       Except.error (Halt.panicked "failed to spawn cmd"))
    ∧ isTypedErr (Main.run w (k + (extra + 1)) m0).2 = false
    ∧ haltExitCode (Halt.panicked "failed to spawn cmd") ≠ 0 := by
  have h := Main.runFrom_spawn_fail m0 w c msg k 0 m0.child extra
    (fun j hj => by rw [Nat.zero_add]; exact hpre j hj)
    (by rwa [Nat.zero_add]) (by rwa [Nat.zero_add])
  rw [withChild_self] at h
  have hrun : Main.run w (k + (extra + 1)) m0 =
      (tracesFrom w m0.interval c 0 k ++ [Event.sync],
       Except.error (Halt.panicked "failed to spawn cmd")) := h
  refine ⟨hrun, ?_, by simp [haltExitCode]⟩
  rw [hrun]
  rfl

/-- Claim C8 witness: one clean cycle, then the spawn of cycle 1 fails and
the daemon panics there. -/
theorem C8_spawn_failure_panics_witness :
    Main.run { wOk with spawn := fun i => if i = 0 then Except.ok 100
                 else Except.error "No such file or directory" } 4 mDisc =
      ([Event.sync, Event.spawn 100, Event.sleep 3600, Event.kill 100 true, Event.sync],
       Except.error (Halt.panicked "failed to spawn cmd")) := by
  have h := C8_spawn_failure_panics mDisc
    { wOk with spawn := fun i => if i = 0 then Except.ok 100
        else Except.error "No such file or directory" }
    (fun _ => 100) "No such file or directory" 1
    (fun j hj => by
      interval_cases j
      exact ⟨rfl, rfl⟩)
    rfl rfl 2
  rw [h.1]
  rfl

/-- Claim C9: terminating the tracked child is best-effort — the `kill`
result is discarded by `let _ = child.kill()`, so two worlds whose git and
spawn behavior agree but whose kill calls succeed or fail arbitrarily
(including a process that already exited, or a handle killed again)
produce identical run outcomes — same halt-or-running result, and the
same trace up to the ignored kill result — a kill failure is never
surfaced as an error. -/
theorem C9_kill_best_effort (w w2 : RunOracle) (hg : w2.git = w.git)
    (hsp : w2.spawn = w.spawn) :
    ∀ fuel i m, (Main.runFrom w2 i fuel m).2 = (Main.runFrom w i fuel m).2 ∧
      eraseKillResults (Main.runFrom w2 i fuel m).1 =
        eraseKillResults (Main.runFrom w i fuel m).1 := by
  intro fuel
  induction fuel with
  | zero => intro i m; exact ⟨rfl, rfl⟩
  | succ fuel ih =>
    intro i m
    simp only [Main.runFrom, Main.runCycle, hg, hsp]
    cases hf : Main.fetch_git_repo m (w.git i) with
    | error e => exact ⟨rfl, rfl⟩
    | ok u =>
      cases hspn : w.spawn i with
      | error msg => exact ⟨rfl, rfl⟩
      | ok ch =>
        simp only [Main.spawn_cmd]
        have h := ih (i + 1) { m with child := some ch }
        constructor
        · exact h.1
        · simp only [eraseKillResults, List.map_append] at h ⊢
          rw [h.2]
          rfl

/-- Claim C9 witness: a world in which every kill call fails produces the
same outcome and kill-result-erased trace as the all-success world. -/
theorem C9_kill_best_effort_witness :
    (Main.runFrom wKillFail 0 2 mDisc).2 = (Main.runFrom wOk 0 2 mDisc).2
    ∧ eraseKillResults (Main.runFrom wKillFail 0 2 mDisc).1 =
        eraseKillResults (Main.runFrom wOk 0 2 mDisc).1 := by
  exact C9_kill_best_effort wOk wKillFail rfl rfl 2 0 mDisc

lemma value_of_command (app : ArgMatches) :
    ArgMatches.value_of app "command" = app.command := rfl

lemma value_of_path (app : ArgMatches) :
    ArgMatches.value_of app "path" = app.path := rfl

lemma is_present_new (app : ArgMatches) :
    ArgMatches.is_present app "new" = app.new.isSome := rfl

lemma is_present_path (app : ArgMatches) :
    ArgMatches.is_present app "path" = app.path.isSome := rfl

lemma is_present_use_pp (app : ArgMatches) :
    ArgMatches.is_present app "use-passphrase" = app.use_passphrase := rfl

/-- Claim C3 (behavior at the failing input): when the transport supplies
no username and the SSH-agent attempt for the effective username (the
configured one) fails, the credentials callback does not attempt key-file
authentication with that effective username as the spec requires — it
panics, because the fallback unwraps the absent transport username. -/
theorem C3_fallback_unwrap_panics (m : Main) (cr : CredOracles) (url : String) (e : String)
    (hagent : cr.ssh_key_from_agent m.username = Except.error e) :
    Main.credentials m cr url none =
      CredOutcome.panicked "called Option::unwrap() on a None value" := by
  simp only [Main.credentials, hagent]

/-- Claim C3 witness: concrete configured username "git", agent refuses,
no transport username: the callback panics instead of trying the key
files. -/
theorem C3_fallback_unwrap_panics_witness :
    Main.credentials mDisc crAgentFail "ssh://example.com/r.git" none =
      CredOutcome.panicked "called Option::unwrap() on a None value" :=
  C3_fallback_unwrap_panics mDisc crAgentFail "ssh://example.com/r.git" "agent refused" rfl

/-- Claim C4 counterexample: a configuration supplying a clone URL and a
command but no explicit path option is rejected at construction with
`MissingPath`, although the claim says it is valid. -/
theorem C4_counterexample :
    Main.new app4 envOk gitOk (Except.ok "") = Except.error Error.MissingPath := rfl

/-- Claim C4 (amended): construction checks presence of the CLI options,
not repository existence: whenever the path option is absent it fails
with the `MissingPath` configuration error — even when a clone URL is
given, so a clone URL without an explicit path is invalid. -/
theorem C4_path_always_required (app : ArgMatches) (env : Env) (git : GitOracles)
    (prompt : Except Unit String) (cs : String) (pr : String × List String) (d : String)
    (hc : app.command = some cs) (hp : Main.parse_cmd_args cs = Except.ok pr)
    (hd : env.current_dir = Except.ok d) (hpath : app.path = none) :
    Main.new app env git prompt = Except.error Error.MissingPath := by
  obtain ⟨cmd0, args0⟩ := pr
  simp only [Main.new, value_of_command, value_of_path, ArgMatches.value_of, hc, hpath, hd,
    hp, is_present_new, is_present_path, Option.isSome_none]
  cases app.new <;> simp

/-- Claim C4 witness for the amended statement: the concrete clone-URL
configuration without a path fails with `MissingPath`. -/
theorem C4_path_always_required_witness :
    Main.new app4 envOk gitOk (Except.error ()) = Except.error Error.MissingPath :=
  C4_path_always_required app4 envOk gitOk (Except.error ()) "npm start" ("npm", ["start"])
    "/home/op/work" rfl rfl rfl rfl

/-- Claim C5 (behavior at the failing input): with `--remote upstream`
construction still resolves the remote name "origin" — the code reads the
undeclared option name "origin" instead of the declared option "remote",
so `value_of` yields none and the default sticks — and sync on a
repository whose only remote is "upstream" therefore fails looking up
"origin" instead of honoring the configured name. -/
theorem C5_remote_option_ignored :
    Main.new app5 envOk gitUp (Except.ok "") = Except.ok mDisc
    ∧ app5.remote = some "upstream"
    ∧ mDisc.origin = "origin"
    ∧ ArgMatches.value_of app5 "origin" = none
    ∧ Main.fetch_git_repo mDisc gitUp =
        Except.error (Error.GitError "no remote named origin") :=
  ⟨rfl, rfl, rfl, rfl, rfl⟩

/-- Claim C6 counterexample: the claim says the command string is split on
whitespace, but the code splits only on the space character: the
two-token command "npm\tstart" is rejected with the missing-command
error, while whitespace splitting (modelled from the spec in
`parse_cmd_whitespace_spec`) accepts it as executable "npm" with
arguments ["start"]. -/
theorem C6_counterexample :
    Main.parse_cmd_args "npm\tstart" = Except.error Error.MissingCommand
    ∧ parse_cmd_whitespace_spec "npm\tstart" = Except.ok ("npm", ["start"]) :=
  ⟨rfl, rfl⟩

/-- Claim C6 (amended): construction parses the single command string by
trimming it and splitting on the space character, keeping empty fields
from consecutive spaces: the first field becomes the executable and the
remaining fields the ordered argument list ("npm start" yields "npm" and
["start"]), and any command string with fewer than two space-separated
fields — a bare command like "ls", but also a tab-separated command — is
rejected with the missing-command configuration error. -/
theorem C6_space_split_parsing :
    Main.parse_cmd_args "npm start" = Except.ok ("npm", ["start"])
    ∧ Main.parse_cmd_args "ls" = Except.error Error.MissingCommand
    ∧ Main.parse_cmd_args "npm  start" = Except.ok ("npm", ["", "start"])
    ∧ ∀ s : String,
        Main.parse_cmd_args s =
          match (splitFields (fun c => c = ' ') (trimWs s.data)).map List.asString with
          | cmd :: arg :: rest => Except.ok (cmd, arg :: rest)
          | _ => Except.error Error.MissingCommand := by
  refine ⟨rfl, rfl, rfl, ?_⟩
  intro s
  unfold Main.parse_cmd_args
  rcases h : (splitFields (fun c => c = ' ') (trimWs s.data)).map List.asString
    with _ | ⟨a, _ | ⟨b, t⟩⟩ <;> simp [h]

/-- Claim C10: when the passphrase hint option is present and the
interactive prompt fails, construction succeeds with the passphrase set
to `some ""` — present but empty, not absent — and every subsequent
key-file fallback in the credentials callback passes exactly that empty
passphrase to `Cred::ssh_key`. -/
theorem C10_prompt_fail_empty_passphrase (app : ArgMatches) (env : Env) (git : GitOracles)
    (m : Main) (hup : app.use_passphrase = true)
    (hnew : Main.new app env git (Except.error ()) = Except.ok m) :
    m.passphrase = some ""
    ∧ ∀ (cr : CredOracles) (u e url : String),
        cr.ssh_key_from_agent u = Except.error e →
        Main.credentials m cr url (some u) =
          match cr.ssh_key u (some m.public_key_path) m.private_key_path (some "") with
          | Except.ok c => CredOutcome.ok c
          | Except.error e2 => CredOutcome.err e2 := by
  have hpass : m.passphrase = some "" := by
    simp only [Main.new, is_present_use_pp, hup, if_true] at hnew
    repeat' split at hnew
    all_goals first
      | exact Except.noConfusion hnew
      | (injection hnew with h2; subst h2; rfl)
  refine ⟨hpass, ?_⟩
  intro cr u e url hag
  simp only [Main.credentials, hag, hpass]

/-- Claim C10 witness: the concrete configuration with the passphrase
hint and a failing prompt constructs `mEmptyPass`, whose key-file
fallback passes the empty passphrase and fails only because the fixture
key is unusable. -/
theorem C10_prompt_fail_empty_passphrase_witness :
    mEmptyPass.passphrase = some ""
    ∧ Main.credentials mEmptyPass crAgentFail "ssh://example.com/r.git" (some "git") =
        CredOutcome.err "no usable key" := by
  have h := C10_prompt_fail_empty_passphrase app10 envOk gitOk mEmptyPass rfl rfl
  refine ⟨h.1, ?_⟩
  rw [h.2 crAgentFail "git" "agent refused" "ssh://example.com/r.git" rfl]
  rfl
